import Mathlib

/-!
Shallow embedding of the real-time room broadcast hub of EventSnap
(`src/app.py`, socket section, lines 860-1094).

The module-level Python dictionaries `active_streams`, `audio_stats`,
`audio_headers`, the socket.io room membership, and the persisted `Event`
records (only the `is_live` flag matters to the hub) are gathered in a
`HubState`.  Each socket handler becomes a pure function from a state and
an inbound message to a `HResult`: the new state, the list of `emit` calls
made, the value returned to the sender (the ack), and the log lines printed.
Python dicts with optional keys (`audio_stats` entries are created with
different key sets by the compressed and the raw-PCM handler) are modelled
as structures of `Option` fields; reading a missing key is a `KeyError`,
which the handlers either catch (`stream_audio`, `stream_audio_pcm` have a
`try`/`except`) or let escape (`Ack.exn`).
-/

namespace EventSnap

/-- Lookup in an association list modelling a Python dict (first binding wins). -/
def dget {κ α : Type} [DecidableEq κ] : List (κ × α) → κ → Option α
  | [], _ => none
  | (k2, v) :: rest, k => if k2 = k then some v else dget rest k

/-- Update/insert modelling `d[k] = v`: replace the first binding or append. -/
def dset {κ α : Type} [DecidableEq κ] : List (κ × α) → κ → α → List (κ × α)
  | [], k, v => [(k, v)]
  | (k2, w) :: rest, k, v =>
      if k2 = k then (k2, v) :: rest else (k2, w) :: dset rest k v

/-- Deletion modelling `del d[k]` (removes every binding of `k`). -/
def derase {κ α : Type} [DecidableEq κ] : List (κ × α) → κ → List (κ × α)
  | [], _ => []
  | (k2, w) :: rest, k =>
      if k2 = k then derase rest k else (k2, w) :: derase rest k

theorem dget_dset {κ α : Type} [DecidableEq κ] (d : List (κ × α)) (k k2 : κ) (v : α) :
    dget (dset d k v) k2 = if k2 = k then some v else dget d k2 := by
  induction d with
  | nil =>
    by_cases h : k2 = k
    · subst h; simp [dget, dset]
    · simp [dget, dset, h, Ne.symm h]
  | cons p rest ih =>
    obtain ⟨k3, w⟩ := p
    by_cases h3 : k3 = k
    · subst h3
      by_cases h : k2 = k3
      · subst h; simp [dget, dset]
      · simp [dget, dset, h, Ne.symm h]
    · by_cases h : k3 = k2
      · subst h
        simp [dget, dset, h3, ih, Ne.symm h3]
      · simp [dget, dset, h3, h, ih]

theorem dget_derase {κ α : Type} [DecidableEq κ] (d : List (κ × α)) (k k2 : κ) :
    dget (derase d k) k2 = if k2 = k then none else dget d k2 := by
  induction d with
  | nil =>
    by_cases h : k2 = k <;> simp [dget, derase, h]
  | cons p rest ih =>
    obtain ⟨k3, w⟩ := p
    by_cases h3 : k3 = k
    · subst h3
      by_cases h : k2 = k3
      · subst h; simp [derase, ih]
      · simp [dget, derase, ih, h, Ne.symm h]
    · by_cases h : k3 = k2
      · subst h
        simp [dget, derase, h3, ih]
      · simp [dget, derase, h3, h, ih]

/-- Audio payload value as received over the socket: a Python `str` or `bytes`. -/
inductive AudioData
  | str (s : String)
  | bytes (b : List Nat)
deriving DecidableEq, Repr

/-- Python falsiness of the payload (`if not audio_data`). -/
def AudioData.isFalsy : AudioData → Bool
  | .str s => s = ""
  | .bytes b => b.isEmpty

/-- Python `len` of the payload. -/
def AudioData.len : AudioData → Nat
  | .str s => s.length
  | .bytes b => b.length

/-- Model of Python `s.startswith(p)`, computed on the character lists so the
kernel can evaluate it. -/
def pyStartsWith (s p : String) : Bool :=
  p.data.isPrefixOf s.data

/-- Nested helper of `pyToInt`: value of a decimal digit string. -/
def digitsToNat : List Char → Nat → Option Nat
  | [], acc => some acc
  | c :: cs, acc =>
      if c.isDigit then digitsToNat cs (acc * 10 + (c.toNat - 48)) else none

/-- Model of Python `int(s)` on strings: an optional sign followed by at least
one decimal digit; anything else raises `ValueError` (`none`). -/
def pyToInt (s : String) : Option Int :=
  match s.data with
  | [] => none
  | '-' :: [] => none
  | '-' :: cs => (digitsToNat cs 0).map (fun n => -(n : Int))
  | '+' :: [] => none
  | '+' :: cs => (digitsToNat cs 0).map (fun n => (n : Int))
  | cs => (digitsToNat cs 0).map (fun n => (n : Int))

/-- Normalization step of `handle_stream_audio`: a `str` payload that does not
already start with `data:` is wrapped into a data URI with the declared mime
type; `bytes` payloads pass through unchanged. -/
def normalizeAudio (mime : String) : AudioData → AudioData
  | .str s =>
      if pyStartsWith s "data:" then .str s
      else .str ("data:" ++ mime ++ ";base64," ++ s)
  | .bytes b => .bytes b

/-- Entry of the `audio_stats` dict.  The compressed-audio handler creates
entries with the keys `started_at`, `chunks_sent`, `total_bytes`; the raw-PCM
handler creates entries with only the key `chunks`.  A `none` field models an
absent key. -/
structure StatsEntry where
  started_at : Option Nat := none
  chunks_sent : Option Nat := none
  total_bytes : Option Nat := none
  chunks : Option Nat := none
deriving DecidableEq, Repr

/-- Entry of the `audio_headers` dict: the cached first chunk of a stream. -/
structure HeaderEntry where
  audio : AudioData
  mimeType : String
  timestamp : Nat
  event_id : String
deriving DecidableEq, Repr

/-- Inbound payload of `stream_audio_pcm`; the handler relays the whole dict. -/
structure PcmIn where
  event_id : Option String := none
  samples : Option (List Int) := none
deriving DecidableEq, Repr

/-- Payload of an `emit` call. -/
inductive Payload
  | audioOut (audio : AudioData) (mimeType : String) (timestamp : Nat)
      (event_id : String) (is_header : Option Bool)
  | frameOut (image : String)
  | reactionOut (emoji : String)
  | started (event_id : String)
  | stopped (event_id : String)
  | pcmEcho (d : PcmIn)
deriving DecidableEq, Repr

/-- Destination of an `emit` call: a socket.io room, or one client (its sid). -/
inductive Target
  | room (r : String)
  | sid (s : String)
deriving DecidableEq, Repr

/-- One `emit` call: socket event name, payload, destination, and whether the
sending client is included (`include_self` / `broadcast=True`). -/
structure Emit where
  name : String
  payload : Payload
  target : Target
  include_self : Bool
deriving DecidableEq, Repr

/-- Value a handler hands back to socket.io: nothing (`None`), a success dict,
an error dict, or an exception that escaped the handler uncaught. -/
inductive Ack
  | noAck
  | ok
  | err (msg : String)
  | exn (msg : String)
deriving DecidableEq, Repr

/-- True exactly for the structured error dict `{'status': 'error', ...}`. -/
def Ack.isErr : Ack → Bool
  | .err _ => true
  | _ => false

/-- Log lines printed by the handlers, abstracted from their f-string text. -/
inductive LogMsg
  | userJoined (room : String)
  | userLeft (room : String)
  | sendingHeader (room : String)
  | streamStarted (event_id room : String)
  | missingEventId
  | emptyAudio (event_id : String)
  | cachingHeader (event_id : String)
  | chunkSample (event_id : String) (count : Nat) (room : String)
  | pcmSample (count : Nat) (event_id : String)
  | pcmError (msg : String)
  | finalStats (event_id : String) (duration : Int) (chunks : Nat)
  | streamStopped (event_id : String)
deriving DecidableEq, Repr

/-- State shared by all handlers: the three module-level dicts, socket.io room
membership, and the external persisted Event store (id, is_live). -/
structure HubState where
  rooms : List (String × List String)
  active_streams : List (String × Unit)
  audio_stats : List (String × StatsEntry)
  audio_headers : List (String × HeaderEntry)
  events : List (Int × Bool)
deriving DecidableEq, Repr

/-- Boot state: all module dicts empty, persisted store as given. -/
def initState (events : List (Int × Bool)) : HubState :=
  ⟨[], [], [], [], events⟩

/-- Result of one handler invocation. -/
structure HResult where
  st : HubState
  emits : List Emit
  ack : Ack
  logs : List LogMsg
deriving DecidableEq, Repr

/-- Members of a socket.io room. -/
def roomMembers (st : HubState) (room : String) : List String :=
  (dget st.rooms room).getD []

/-- Model of flask_socketio `join_room`: add the sid; idempotent. -/
def join_room (rooms : List (String × List String)) (sid room : String) :
    List (String × List String) :=
  let members := (dget rooms room).getD []
  if members.contains sid then rooms else dset rooms room (members ++ [sid])

/-- Model of flask_socketio `leave_room`: remove the sid; no-op if absent. -/
def leave_room (rooms : List (String × List String)) (sid room : String) :
    List (String × List String) :=
  match dget rooms room with
  | none => rooms
  | some members => dset rooms room (members.erase sid)

/-- Clients that actually receive an emitted message: the addressed sid for a
unicast, the room members for a room emit — minus the sender unless
`include_self` is set. -/
def Emit.recipients (st : HubState) (sender : String) (e : Emit) : List String :=
  match e.target with
  | .sid s => [s]
  | .room r => (roomMembers st r).filter (fun c => e.include_self || c != sender)

/-- Inbound data of `join_event` / `leave_event` / `start_stream` /
`stop_stream` / the handlers that only read `data['event_id']` by key.  A
`none` field models an absent key; a `none` message models `data is None`. -/
structure EventIdIn where
  event_id : Option String := none
deriving DecidableEq, Repr

/-- Inbound data of `stream_frame`. -/
structure FrameIn where
  event_id : Option String := none
  image : Option String := none
deriving DecidableEq, Repr

/-- Inbound data of `send_reaction`. -/
structure ReactionIn where
  event_id : Option String := none
  emoji : Option String := none
deriving DecidableEq, Repr

/-- Inbound data of `stream_audio`. -/
structure AudioIn where
  event_id : Option String := none
  audio : Option AudioData := none
  mimeType : Option String := none
  timestamp : Option Nat := none
deriving DecidableEq, Repr

/-- Handler of `join_event` (src/app.py `on_join`): `str(data['event_id'])`
(uncaught exception when absent), `join_room`, log, and — when a header is
cached for the event — a unicast `new_audio` emit of the cached header to the
joining sid. -/
def on_join (st : HubState) (sid : String) (data : Option EventIdIn) : HResult :=
  match data with
  | none => ⟨st, [], .exn "TypeError: NoneType is not subscriptable", []⟩
  | some d =>
    match d.event_id with
    | none => ⟨st, [], .exn "KeyError: event_id", []⟩
    | some event_id =>
      let room := event_id
      let st1 := { st with rooms := join_room st.rooms sid room }
      match dget st1.audio_headers event_id with
      | some h =>
          ⟨st1,
           [⟨"new_audio", .audioOut h.audio h.mimeType h.timestamp h.event_id (some true),
             .sid sid, true⟩],
           .noAck,
           [.userJoined room, .sendingHeader room]⟩
      | none => ⟨st1, [], .noAck, [.userJoined room]⟩

/-- Handler of `leave_event` (src/app.py `on_leave`). -/
def on_leave (st : HubState) (sid : String) (data : Option EventIdIn) : HResult :=
  match data with
  | none => ⟨st, [], .exn "TypeError: NoneType is not subscriptable", []⟩
  | some d =>
    match d.event_id with
    | none => ⟨st, [], .exn "KeyError: event_id", []⟩
    | some room =>
      ⟨{ st with rooms := leave_room st.rooms sid room }, [], .noAck, [.userLeft room]⟩

/-- Handler of `start_stream` (src/app.py `handle_start_stream`): deletes the
cached header for the event (this happens before any check of the persisted
store), then looks up `Event` by `int(event_id)`; when the record exists the
persisted `is_live` flag is set to `True` and `stream_started` is broadcast to
the whole room; when it does not, nothing further happens.  The `audio_stats`
counters are never touched. -/
def handle_start_stream (st : HubState) (data : Option EventIdIn) : HResult :=
  match data with
  | none => ⟨st, [], .exn "TypeError: NoneType is not subscriptable", []⟩
  | some d =>
    match d.event_id with
    | none => ⟨st, [], .exn "KeyError: event_id", []⟩
    | some event_id =>
      let room := event_id
      let st1 := { st with audio_headers := derase st.audio_headers event_id }
      match pyToInt event_id with
      | none => ⟨st1, [], .exn "ValueError: invalid literal for int", []⟩
      | some n =>
        match dget st1.events n with
        | none => ⟨st1, [], .noAck, []⟩
        | some _ =>
            ⟨{ st1 with events := dset st1.events n true },
             [⟨"stream_started", .started event_id, .room room, true⟩],
             .noAck,
             [.streamStarted event_id room]⟩

/-- Handler of `stop_stream` (src/app.py `handle_stop_stream`): deletes the
cached header, then — when a counters entry exists — logs the final stats
(duration from `started_at`, `chunks_sent` with default 0) and deletes the
entry, then looks up the persisted record; when it exists the `is_live` flag is
set to `False` and `stream_stopped` is broadcast. -/
def handle_stop_stream (st : HubState) (data : Option EventIdIn) (now : Nat) : HResult :=
  match data with
  | none => ⟨st, [], .exn "TypeError: NoneType is not subscriptable", []⟩
  | some d =>
    match d.event_id with
    | none => ⟨st, [], .exn "KeyError: event_id", []⟩
    | some event_id =>
      let st1 := { st with audio_headers := derase st.audio_headers event_id }
      let room := event_id
      let (st2, logs1) :=
        match dget st1.audio_stats event_id with
        | some stats =>
            let duration : Int := (now : Int) - ((stats.started_at.getD now : Nat) : Int)
            ({ st1 with audio_stats := derase st1.audio_stats event_id },
             [LogMsg.finalStats event_id duration (stats.chunks_sent.getD 0)])
        | none => (st1, [])
      match pyToInt event_id with
      | none => ⟨st2, [], .exn "ValueError: invalid literal for int", logs1⟩
      | some n =>
        match dget st2.events n with
        | none => ⟨st2, [], .noAck, logs1⟩
        | some _ =>
            ⟨{ st2 with events := dset st2.events n false },
             [⟨"stream_stopped", .stopped event_id, .room room, true⟩],
             .noAck,
             logs1 ++ [.streamStopped event_id]⟩

/-- Handler of `stream_frame` (src/app.py `handle_stream_frame`): stateless
relay of the image to the room, excluding the sender. -/
def handle_stream_frame (st : HubState) (data : Option FrameIn) : HResult :=
  match data with
  | none => ⟨st, [], .exn "TypeError: NoneType is not subscriptable", []⟩
  | some d =>
    match d.event_id with
    | none => ⟨st, [], .exn "KeyError: event_id", []⟩
    | some room =>
      match d.image with
      | none => ⟨st, [], .exn "KeyError: image", []⟩
      | some img =>
          ⟨st, [⟨"new_frame", .frameOut img, .room room, false⟩], .noAck, []⟩

/-- Handler of `send_reaction` (src/app.py `handle_reaction`): broadcast of the
emoji to the whole room, sender included (`broadcast=True`). -/
def handle_reaction (st : HubState) (data : Option ReactionIn) : HResult :=
  match data with
  | none => ⟨st, [], .exn "TypeError: NoneType is not subscriptable", []⟩
  | some d =>
    match d.event_id with
    | none => ⟨st, [], .exn "KeyError: event_id", []⟩
    | some room =>
      match d.emoji with
      | none => ⟨st, [], .exn "KeyError: emoji", []⟩
      | some em =>
          ⟨st, [⟨"new_reaction", .reactionOut em, .room room, true⟩], .noAck, []⟩

/-- Handler of `stream_audio` (src/app.py `handle_stream_audio`).  The whole
body sits in a `try`/`except` that converts any exception into a structured
error acknowledgement.  Steps: validate `event_id` and a truthy `audio`
payload; normalize string payloads into a data URI; create the stats entry
(`started_at`/`chunks_sent`/`total_bytes`) when absent; increment
`chunks_sent` and `total_bytes` (a `KeyError` on an entry created by the PCM
handler is caught, after any increment already written); cache the normalized
chunk as the header exactly when `chunks_sent` reached 1; log every 50th
chunk; relay `new_audio` to the room excluding the sender; ack success. -/
def handle_stream_audio (st : HubState) (data : Option AudioIn) (now : Nat) : HResult :=
  match data with
  | none => ⟨st, [], .err "Missing event_id", [.missingEventId]⟩
  | some d =>
  match d.event_id with
  | none => ⟨st, [], .err "Missing event_id", [.missingEventId]⟩
  | some event_id =>
  let room := event_id
  match d.audio with
  | none => ⟨st, [], .err "No audio data", [.emptyAudio event_id]⟩
  | some a =>
  if a.isFalsy then ⟨st, [], .err "No audio data", [.emptyAudio event_id]⟩
  else
    let mime_type := d.mimeType.getD "audio/webm"
    let audio_data := normalizeAudio mime_type a
    let (st1, entry) :=
      match dget st.audio_stats event_id with
      | none =>
          let e : StatsEntry :=
            { started_at := some now, chunks_sent := some 0, total_bytes := some 0 }
          ({ st with audio_stats := dset st.audio_stats event_id e }, e)
      | some e => (st, e)
    match entry.chunks_sent with
    | none => ⟨st1, [], .err "KeyError: chunks_sent", []⟩
    | some c =>
      let e2 := { entry with chunks_sent := some (c + 1) }
      let st2 := { st1 with audio_stats := dset st1.audio_stats event_id e2 }
      match e2.total_bytes with
      | none => ⟨st2, [], .err "KeyError: total_bytes", []⟩
      | some tb =>
        let e3 := { e2 with total_bytes := some (tb + audio_data.len) }
        let st3 := { st2 with audio_stats := dset st2.audio_stats event_id e3 }
        let chunk_count := c + 1
        let hdr : HeaderEntry := ⟨audio_data, mime_type, d.timestamp.getD now, event_id⟩
        let (st4, logs1) :=
          if chunk_count = 1 then
            ({ st3 with audio_headers := dset st3.audio_headers event_id hdr },
             [LogMsg.cachingHeader event_id])
          else (st3, ([] : List LogMsg))
        let logs2 :=
          if chunk_count % 50 = 1 then logs1 ++ [.chunkSample event_id chunk_count room]
          else logs1
        ⟨st4,
         [⟨"new_audio",
           .audioOut audio_data mime_type (d.timestamp.getD now) event_id none,
           .room room, false⟩],
         .ok, logs2⟩

/-- Handler of `stream_audio_pcm` (src/app.py `handle_stream_audio_pcm`).
Missing data or `event_id` returns silently (no error dict).  The payload
itself is never validated: the whole inbound dict is relayed.  The stats entry
is created with only the `chunks` key when absent; incrementing `chunks` on an
entry created by the compressed handler raises a `KeyError` that the
`except` swallows with a log line, dropping the chunk. -/
def handle_stream_audio_pcm (st : HubState) (data : Option PcmIn) : HResult :=
  match data with
  | none => ⟨st, [], .noAck, []⟩
  | some d =>
  match d.event_id with
  | none => ⟨st, [], .noAck, []⟩
  | some event_id =>
    let room := event_id
    let (st1, entry) :=
      match dget st.audio_stats event_id with
      | none =>
          let e : StatsEntry := { chunks := some 0 }
          ({ st with audio_stats := dset st.audio_stats event_id e }, e)
      | some e => (st, e)
    match entry.chunks with
    | none => ⟨st1, [], .noAck, [.pcmError "KeyError: chunks"]⟩
    | some c =>
      let e2 := { entry with chunks := some (c + 1) }
      let st2 := { st1 with audio_stats := dset st1.audio_stats event_id e2 }
      let logs :=
        if (c + 1) % 50 = 1 then [LogMsg.pcmSample (c + 1) event_id] else []
      ⟨st2, [⟨"new_audio_pcm", .pcmEcho d, .room room, false⟩], .noAck, logs⟩

/-- Answer of the `/debug/rooms/<event_id>` route. -/
structure RoomInfo where
  room : String
  clients : List String
  stats : Option StatsEntry
  is_streaming : Bool
deriving DecidableEq, Repr

/-- Route `/debug/rooms/<event_id>` (src/app.py `debug_rooms`): returns the
room id, a `clients` list that is the literal `[]`, the stats entry
(`audio_stats.get(event_id, {})`, `none` modelling `{}`), and membership in
`active_streams` — a dict no code ever writes.  The state is returned
untouched. -/
def debug_rooms (st : HubState) (event_id : String) : HubState × RoomInfo :=
  (st,
   { room := event_id
     clients := []
     stats := dget st.audio_stats event_id
     is_streaming := (dget st.active_streams event_id).isSome })

/-- One inbound socket operation, with the sid of the sending connection and
the wall-clock instant where the handler reads it. -/
inductive Op
  | join (sid : String) (data : Option EventIdIn)
  | leave (sid : String) (data : Option EventIdIn)
  | start (sid : String) (data : Option EventIdIn)
  | stop (sid : String) (data : Option EventIdIn) (now : Nat)
  | frame (sid : String) (data : Option FrameIn)
  | audio (sid : String) (data : Option AudioIn) (now : Nat)
  | pcm (sid : String) (data : Option PcmIn)
  | reaction (sid : String) (data : Option ReactionIn)
deriving DecidableEq, Repr

/-- Dispatch of one operation to its handler. -/
def stepOp (st : HubState) : Op → HResult
  | .join sid d => on_join st sid d
  | .leave sid d => on_leave st sid d
  | .start _ d => handle_start_stream st d
  | .stop _ d now => handle_stop_stream st d now
  | .frame _ d => handle_stream_frame st d
  | .audio _ d now => handle_stream_audio st d now
  | .pcm _ d => handle_stream_audio_pcm st d
  | .reaction _ d => handle_reaction st d

/-- Run a trace of operations, accumulating every emit made along the way. -/
def runOps (st : HubState) : List Op → HubState × List Emit
  | [] => (st, [])
  | op :: rest =>
      ((runOps (stepOp st op).st rest).1,
       (stepOp st op).emits ++ (runOps (stepOp st op).st rest).2)

/-- True when the emit is a compressed-audio relay broadcast to room `E`
(the unicast header replay to a joiner targets a sid, not the room, and the
raw-PCM relay uses the event name `new_audio_pcm`). -/
def isAudioRelay (E : String) (e : Emit) : Bool :=
  e.name == "new_audio" && e.target == Target.room E

/-- True when the handler invocation relayed a compressed audio chunk to room `E`. -/
def relayedE (r : HResult) (E : String) : Bool :=
  r.emits.any (isAudioRelay E)

/-- True when the operation is a `start_stream` whose `event_id` field is `E`. -/
def isStartE (op : Op) (E : String) : Bool :=
  match op with
  | .start _ (some d) => d.event_id == some E
  | _ => false

/-- True when the operation is a `stop_stream` whose `event_id` field is `E`. -/
def isStopE (op : Op) (E : String) : Bool :=
  match op with
  | .stop _ (some d) _ => d.event_id == some E
  | _ => false

/-- Whether the header cache holds an entry for `E`. -/
def headersHas (st : HubState) (E : String) : Bool :=
  (dget st.audio_headers E).isSome

/-- The `chunks_sent` counter recorded for `E`, if both the stats entry and
that key exist. -/
def csAt (st : HubState) (E : String) : Option Nat :=
  match dget st.audio_stats E with
  | none => none
  | some e => e.chunks_sent

/-- Predicate of claim C1 read literally, as a fold over the trace: the flag
is raised when a compressed chunk is relayed for `E` and dropped by every
`start(E)` or `stop(E)`; the claim asserts the header cache is non-empty
exactly when the flag is up. -/
def c1Flag (st : HubState) (E : String) (flag : Bool) : List Op → Bool
  | [] => flag
  | op :: rest =>
      let r := stepOp st op
      let flag2 :=
        if isStartE op E || isStopE op E then false
        else if relayedE r E then true
        else flag
      c1Flag r.st E flag2 rest

/-- Predicate of the amended claim C1, as a fold over the trace: `rl` records
whether some compressed chunk has been relayed for `E` since the most recent
`stop(E)` (or ever); `p` predicts the cache and is raised only by the first
such chunk, dropped by `start(E)` and `stop(E)`. -/
def c1AmendFlag (st : HubState) (E : String) (rl p : Bool) : List Op → Bool
  | [] => p
  | op :: rest =>
      c1AmendFlag (stepOp st op).st E
        (if isStartE op E then rl
         else if isStopE op E then false
         else if relayedE (stepOp st op) E then true
         else rl)
        (if isStartE op E then false
         else if isStopE op E then false
         else if relayedE (stepOp st op) E then (if rl then p else true)
         else p)
        rest

theorem derase_of_dget_none {κ α : Type} [DecidableEq κ] (d : List (κ × α)) (k : κ)
    (h : dget d k = none) : derase d k = d := by
  induction d with
  | nil => simp [derase]
  | cons p rest ih =>
    obtain ⟨k2, w⟩ := p
    by_cases h2 : k2 = k
    · subst h2; simp [dget] at h
    · simp [dget, h2] at h
      simp [derase, h2, ih h]

theorem roomMembers_join_room (rooms : List (String × List String)) (sid room : String) :
    (dget (join_room rooms sid room) room).getD [] =
      (if ((dget rooms room).getD []).contains sid then (dget rooms room).getD []
       else (dget rooms room).getD [] ++ [sid]) := by
  by_cases h : sid ∈ (dget rooms room).getD []
  · simp [join_room, h]
  · simp [join_room, h, dget_dset]

/-- Sample states used by the concrete counterexamples and witnesses. -/
def hdrA : HeaderEntry :=
  ⟨.str "data:audio/webm;base64,AAAA", "audio/webm", 0, "7"⟩

/-- State with one subscriber, live counters and a cached header for event 7. -/
def stWithHeader : HubState :=
  ⟨[("7", ["alice"])], [],
   [("7", { started_at := some 0, chunks_sent := some 2, total_bytes := some 8 })],
   [("7", hdrA)], [(7, false)]⟩

/-- C2: a connection joining room `E` while a header is cached receives, as its
only message from the join, a unicast replay of the cached entry (delivered
exactly to itself); when nothing is cached the join sends it nothing; in both
cases the connection is, from then on, registered in the room. -/
theorem c2_join_header_replay (st : HubState) (sid E : String) :
    (∀ h, dget st.audio_headers E = some h →
        (on_join st sid (some { event_id := some E })).emits =
          [⟨"new_audio", .audioOut h.audio h.mimeType h.timestamp h.event_id (some true),
            .sid sid, true⟩] ∧
        Emit.recipients (on_join st sid (some { event_id := some E })).st sid
            ⟨"new_audio", .audioOut h.audio h.mimeType h.timestamp h.event_id (some true),
              .sid sid, true⟩ = [sid]) ∧
    (dget st.audio_headers E = none →
        (on_join st sid (some { event_id := some E })).emits = []) ∧
    roomMembers (on_join st sid (some { event_id := some E })).st E =
      (if (roomMembers st E).contains sid then roomMembers st E
       else roomMembers st E ++ [sid]) := by
  refine ⟨?_, ?_, ?_⟩
  · intro h hh
    simp [on_join, hh, Emit.recipients]
  · intro hh
    simp [on_join, hh]
  · rcases hh : dget st.audio_headers E with _ | h <;>
      simp [on_join, hh, roomMembers, roomMembers_join_room]

theorem c2_join_header_replay_witness :
    dget stWithHeader.audio_headers "7" = some hdrA ∧
    (on_join stWithHeader "carol" (some { event_id := some "7" })).emits =
      [⟨"new_audio", .audioOut hdrA.audio hdrA.mimeType hdrA.timestamp hdrA.event_id (some true),
        .sid "carol", true⟩] :=
  ⟨by decide, (((c2_join_header_replay stWithHeader "carol" "7").1) hdrA (by decide)).1⟩

/-- C3 counterexample: with live counters recorded for event 7 and the
persisted record present, `start_stream` does not clear the counters entry
(the code never touches `audio_stats`), refuting the claim that `start(E)`
clears the chunk/byte counters. -/
theorem c3_counterexample :
    ¬ (dget (handle_start_stream stWithHeader
          (some { event_id := some "7" })).st.audio_stats "7" = none) := by decide

/-- C3 amended: for an event whose persisted record exists, `start(E)` clears
the header cache entry for `E`, leaves the chunk/byte counters untouched, sets
the persisted `is_live` flag to true and broadcasts `stream_started` to the
whole room. -/
theorem c3_start_stream (st : HubState) (E : String) (n : Int) (b : Bool)
    (hn : pyToInt E = some n) (hb : dget st.events n = some b) :
    (handle_start_stream st (some { event_id := some E })).st.audio_headers =
        derase st.audio_headers E ∧
    (handle_start_stream st (some { event_id := some E })).st.audio_stats =
        st.audio_stats ∧
    (handle_start_stream st (some { event_id := some E })).st.rooms = st.rooms ∧
    (handle_start_stream st (some { event_id := some E })).st.events =
        dset st.events n true ∧
    (handle_start_stream st (some { event_id := some E })).emits =
        [⟨"stream_started", .started E, .room E, true⟩] ∧
    (handle_start_stream st (some { event_id := some E })).ack = .noAck := by
  simp [handle_start_stream, hn, hb]

theorem c3_start_stream_witness :
    pyToInt "7" = some 7 ∧ dget stWithHeader.events 7 = some false ∧
    (handle_start_stream stWithHeader (some { event_id := some "7" })).st.events =
      dset stWithHeader.events 7 true :=
  ⟨by decide, by decide,
   (c3_start_stream stWithHeader "7" 7 false (by decide) (by decide)).2.2.2.1⟩

/-- C4: for an event with a persisted record and a counters entry, `stop(E)`
clears the header cache, logs the final summary (duration from `started_at`,
total chunks from `chunks_sent`) computed from the counters, deletes the
counters entry, sets the persisted flag to false and broadcasts
`stream_stopped` to the room. -/
theorem c4_stop_stream (st : HubState) (E : String) (n : Int) (b : Bool)
    (s : StatsEntry) (now : Nat)
    (hn : pyToInt E = some n) (hs : dget st.audio_stats E = some s)
    (hb : dget st.events n = some b) :
    (handle_stop_stream st (some { event_id := some E }) now).st.audio_headers =
        derase st.audio_headers E ∧
    (handle_stop_stream st (some { event_id := some E }) now).st.audio_stats =
        derase st.audio_stats E ∧
    (handle_stop_stream st (some { event_id := some E }) now).logs =
        [.finalStats E ((now : Int) - ((s.started_at.getD now : Nat) : Int))
           (s.chunks_sent.getD 0),
         .streamStopped E] ∧
    (handle_stop_stream st (some { event_id := some E }) now).st.events =
        dset st.events n false ∧
    (handle_stop_stream st (some { event_id := some E }) now).emits =
        [⟨"stream_stopped", .stopped E, .room E, true⟩] ∧
    (handle_stop_stream st (some { event_id := some E }) now).ack = .noAck := by
  simp [handle_stop_stream, hn, hs, hb]

theorem c4_stop_stream_witness :
    pyToInt "7" = some 7 ∧
    dget stWithHeader.audio_stats "7" =
      some { started_at := some 0, chunks_sent := some 2, total_bytes := some 8 } ∧
    dget stWithHeader.events 7 = some false ∧
    (handle_stop_stream stWithHeader (some { event_id := some "7" }) 5).logs =
      [.finalStats "7" 5 2, .streamStopped "7"] :=
  ⟨by decide, by decide, by decide,
   (c4_stop_stream stWithHeader "7" 7 false
      { started_at := some 0, chunks_sent := some 2, total_bytes := some 8 } 5
      (by decide) (by decide) (by decide)).2.2.1⟩

/-- `join_event` touches only room membership: the header cache, the stats and
`active_streams` are untouched and no compressed-audio relay is broadcast (the
header replay is a unicast to the joiner's sid). -/
theorem on_join_effects (st : HubState) (sid : String) (d : Option EventIdIn) (E : String) :
    (on_join st sid d).st.audio_headers = st.audio_headers ∧
    (on_join st sid d).st.audio_stats = st.audio_stats ∧
    (on_join st sid d).st.active_streams = st.active_streams ∧
    (on_join st sid d).st.events = st.events ∧
    relayedE (on_join st sid d) E = false := by
  rcases d with _ | d
  · simp [on_join, relayedE]
  rcases hd : d.event_id with _ | eid
  · simp [on_join, hd, relayedE]
  rcases hh : dget st.audio_headers eid with _ | h <;>
    simp [on_join, hd, hh, relayedE, isAudioRelay]

/-- `leave_event` touches only room membership and emits nothing. -/
theorem on_leave_effects (st : HubState) (sid : String) (d : Option EventIdIn) (E : String) :
    (on_leave st sid d).st.audio_headers = st.audio_headers ∧
    (on_leave st sid d).st.audio_stats = st.audio_stats ∧
    (on_leave st sid d).st.active_streams = st.active_streams ∧
    (on_leave st sid d).st.events = st.events ∧
    relayedE (on_leave st sid d) E = false := by
  rcases d with _ | d
  · simp [on_leave, relayedE]
  rcases hd : d.event_id with _ | eid <;> simp [on_leave, hd, relayedE]

/-- `stream_frame` never changes state and never relays compressed audio. -/
theorem frame_effects (st : HubState) (d : Option FrameIn) (E : String) :
    (handle_stream_frame st d).st = st ∧
    relayedE (handle_stream_frame st d) E = false := by
  rcases d with _ | d
  · simp [handle_stream_frame, relayedE]
  rcases hd : d.event_id with _ | eid
  · simp [handle_stream_frame, hd, relayedE]
  rcases hi : d.image with _ | img <;>
    simp [handle_stream_frame, hd, hi, relayedE, isAudioRelay]

/-- `send_reaction` never changes state and never relays compressed audio. -/
theorem reaction_effects (st : HubState) (d : Option ReactionIn) (E : String) :
    (handle_reaction st d).st = st ∧
    relayedE (handle_reaction st d) E = false := by
  rcases d with _ | d
  · simp [handle_reaction, relayedE]
  rcases hd : d.event_id with _ | eid
  · simp [handle_reaction, hd, relayedE]
  rcases he : d.emoji with _ | em <;>
    simp [handle_reaction, hd, he, relayedE, isAudioRelay]

/-- `stream_audio_pcm` never touches the header cache, never changes the
`chunks_sent` counter of any event (its stats entries carry only `chunks`),
and its relay uses the distinct event name `new_audio_pcm`. -/
theorem pcm_effects (st : HubState) (d : Option PcmIn) (E : String) :
    (handle_stream_audio_pcm st d).st.audio_headers = st.audio_headers ∧
    csAt (handle_stream_audio_pcm st d).st E = csAt st E ∧
    (handle_stream_audio_pcm st d).st.active_streams = st.active_streams ∧
    (handle_stream_audio_pcm st d).st.events = st.events ∧
    (handle_stream_audio_pcm st d).st.rooms = st.rooms ∧
    relayedE (handle_stream_audio_pcm st d) E = false := by
  rcases d with _ | d
  · simp [handle_stream_audio_pcm, relayedE]
  rcases hd : d.event_id with _ | F
  · simp [handle_stream_audio_pcm, hd, relayedE]
  rcases hs : dget st.audio_stats F with _ | e
  · by_cases hEF : E = F
    · subst hEF
      simp [handle_stream_audio_pcm, hd, hs, relayedE, isAudioRelay, csAt, dget_dset]
    · simp [handle_stream_audio_pcm, hd, hs, relayedE, isAudioRelay, csAt, dget_dset, hEF]
  rcases hc : e.chunks with _ | c
  · simp [handle_stream_audio_pcm, hd, hs, hc, relayedE, csAt]
  · by_cases hEF : E = F
    · subst hEF
      simp [handle_stream_audio_pcm, hd, hs, hc, relayedE, isAudioRelay, csAt, dget_dset]
    · simp [handle_stream_audio_pcm, hd, hs, hc, relayedE, isAudioRelay, csAt, dget_dset, hEF]

/-- `start_stream` never touches `audio_stats`, membership or
`active_streams`, relays no compressed audio, and empties the header cache
entry of exactly the event named in its data. -/
theorem start_effects (st : HubState) (sid : String) (d : Option EventIdIn) (E : String) :
    (handle_start_stream st d).st.audio_stats = st.audio_stats ∧
    (handle_start_stream st d).st.active_streams = st.active_streams ∧
    (handle_start_stream st d).st.rooms = st.rooms ∧
    relayedE (handle_start_stream st d) E = false ∧
    headersHas (handle_start_stream st d).st E =
      (if isStartE (.start sid d) E then false else headersHas st E) := by
  rcases d with _ | d
  · simp [handle_start_stream, relayedE, isStartE]
  rcases hd : d.event_id with _ | F
  · simp [handle_start_stream, hd, relayedE, isStartE]
  by_cases hEF : F = E
  · subst hEF
    rcases hn : pyToInt F with _ | n
    · simp [handle_start_stream, hd, hn, relayedE, isStartE, headersHas, dget_derase]
    rcases hb : dget st.events n with _ | b <;>
      simp [handle_start_stream, hd, hn, hb, relayedE, isAudioRelay, isStartE,
        headersHas, dget_derase]
  · rcases hn : pyToInt F with _ | n
    · simp [handle_start_stream, hd, hn, relayedE, isStartE, headersHas, dget_derase,
        hEF, Ne.symm hEF]
    rcases hb : dget st.events n with _ | b <;>
      simp [handle_start_stream, hd, hn, hb, relayedE, isAudioRelay, isStartE,
        headersHas, dget_derase, hEF, Ne.symm hEF]

/-- `stop_stream` never touches membership or `active_streams`, relays no
compressed audio, and empties both the header cache entry and the counters
entry of exactly the event named in its data. -/
theorem stop_effects (st : HubState) (sid : String) (d : Option EventIdIn) (now : Nat)
    (E : String) :
    (handle_stop_stream st d now).st.active_streams = st.active_streams ∧
    (handle_stop_stream st d now).st.rooms = st.rooms ∧
    relayedE (handle_stop_stream st d now) E = false ∧
    headersHas (handle_stop_stream st d now).st E =
      (if isStopE (.stop sid d now) E then false else headersHas st E) ∧
    csAt (handle_stop_stream st d now).st E =
      (if isStopE (.stop sid d now) E then none else csAt st E) := by
  rcases d with _ | d
  · simp [handle_stop_stream, relayedE, isStopE, csAt]
  rcases hd : d.event_id with _ | F
  · simp [handle_stop_stream, hd, relayedE, isStopE, csAt]
  by_cases hEF : F = E
  · subst hEF
    rcases hs : dget st.audio_stats F with _ | s <;>
      rcases hn : pyToInt F with _ | n
    · simp [handle_stop_stream, hd, hs, hn, relayedE, isStopE, headersHas, csAt,
        dget_derase]
    · rcases hb : dget st.events n with _ | b <;>
        simp [handle_stop_stream, hd, hs, hn, hb, relayedE, isAudioRelay, isStopE,
          headersHas, csAt, dget_derase]
    · simp [handle_stop_stream, hd, hs, hn, relayedE, isStopE, headersHas, csAt,
        dget_derase]
    · rcases hb : dget st.events n with _ | b <;>
        simp [handle_stop_stream, hd, hs, hn, hb, relayedE, isAudioRelay, isStopE,
          headersHas, csAt, dget_derase]
  · rcases hs : dget st.audio_stats F with _ | s <;>
      rcases hn : pyToInt F with _ | n
    · simp [handle_stop_stream, hd, hs, hn, relayedE, isStopE, headersHas, csAt,
        dget_derase, hEF, Ne.symm hEF]
    · rcases hb : dget st.events n with _ | b <;>
        simp [handle_stop_stream, hd, hs, hn, hb, relayedE, isAudioRelay, isStopE,
          headersHas, csAt, dget_derase, hEF, Ne.symm hEF]
    · simp [handle_stop_stream, hd, hs, hn, relayedE, isStopE, headersHas, csAt,
        dget_derase, hEF, Ne.symm hEF]
    · rcases hb : dget st.events n with _ | b <;>
        simp [handle_stop_stream, hd, hs, hn, hb, relayedE, isAudioRelay, isStopE,
          headersHas, csAt, dget_derase, hEF, Ne.symm hEF]

/-- Effect of `stream_audio` on the header cache and the `chunks_sent`
counter of an arbitrary event `E`, given that every recorded `chunks_sent`
counter is at least 1 (which holds in every reachable state).  Exactly one of
three scenarios happens: no relay to room `E` and the cache/counter presence
for `E` unchanged; a first chunk that creates the counter at 1 and caches the
header; or a later chunk that increments the counter and leaves the cache
alone. -/
theorem audio_effects (st : HubState) (d : Option AudioIn) (now : Nat) (E : String)
    (hge : ∀ c, csAt st E = some c → 1 ≤ c) :
    (handle_stream_audio st d now).st.active_streams = st.active_streams ∧
    (handle_stream_audio st d now).st.rooms = st.rooms ∧
    (handle_stream_audio st d now).st.events = st.events ∧
    ((relayedE (handle_stream_audio st d now) E = false ∧
      headersHas (handle_stream_audio st d now).st E = headersHas st E ∧
      (csAt (handle_stream_audio st d now).st E).isSome = (csAt st E).isSome ∧
      (∀ c, csAt (handle_stream_audio st d now).st E = some c → 1 ≤ c)) ∨
     (relayedE (handle_stream_audio st d now) E = true ∧ csAt st E = none ∧
      headersHas (handle_stream_audio st d now).st E = true ∧
      csAt (handle_stream_audio st d now).st E = some 1) ∨
     (relayedE (handle_stream_audio st d now) E = true ∧ (csAt st E).isSome = true ∧
      headersHas (handle_stream_audio st d now).st E = headersHas st E ∧
      ∃ c, csAt st E = some c ∧
        csAt (handle_stream_audio st d now).st E = some (c + 1))) := by
  rcases d with _ | d
  · exact ⟨rfl, rfl, rfl, .inl ⟨rfl, rfl, rfl, hge⟩⟩
  rcases hd : d.event_id with _ | F
  · refine ⟨?_, ?_, ?_, .inl ⟨?_, ?_, ?_, ?_⟩⟩ <;>
      simp [handle_stream_audio, hd, relayedE]
    exact hge
  rcases hau : d.audio with _ | a
  · refine ⟨?_, ?_, ?_, .inl ⟨?_, ?_, ?_, ?_⟩⟩ <;>
      simp [handle_stream_audio, hd, hau, relayedE]
    exact hge
  by_cases hf : a.isFalsy
  · refine ⟨?_, ?_, ?_, .inl ⟨?_, ?_, ?_, ?_⟩⟩ <;>
      simp [handle_stream_audio, hd, hau, hf, relayedE]
    exact hge
  rcases hs : dget st.audio_stats F with _ | e
  · by_cases hEF : E = F
    · subst hEF
      refine ⟨?_, ?_, ?_, .inr (.inl ⟨?_, ?_, ?_, ?_⟩)⟩ <;>
        simp [handle_stream_audio, hd, hau, hf, hs, relayedE, isAudioRelay,
          headersHas, csAt, dget_dset]
    · refine ⟨?_, ?_, ?_, .inl ⟨?_, ?_, ?_, ?_⟩⟩ <;>
        simp [handle_stream_audio, hd, hau, hf, hs, relayedE, isAudioRelay,
          headersHas, csAt, dget_dset, hEF, Ne.symm hEF]
      rcases hsE : dget st.audio_stats E with _ | eE
      · simp [csAt, hsE]
      · intro c hc
        exact hge c (by simpa [csAt, hsE] using hc)
  rcases hcs : e.chunks_sent with _ | c
  · refine ⟨?_, ?_, ?_, .inl ⟨?_, ?_, ?_, ?_⟩⟩ <;>
      simp [handle_stream_audio, hd, hau, hf, hs, hcs, relayedE]
    exact hge
  rcases htb : e.total_bytes with _ | tb
  · by_cases hEF : E = F
    · subst hEF
      refine ⟨?_, ?_, ?_, .inl ⟨?_, ?_, ?_, ?_⟩⟩ <;>
        simp [handle_stream_audio, hd, hau, hf, hs, hcs, htb, relayedE,
          headersHas, csAt, dget_dset]
    · refine ⟨?_, ?_, ?_, .inl ⟨?_, ?_, ?_, ?_⟩⟩ <;>
        simp [handle_stream_audio, hd, hau, hf, hs, hcs, htb, relayedE,
          headersHas, csAt, dget_dset, hEF, Ne.symm hEF]
      rcases hsE : dget st.audio_stats E with _ | eE
      · simp [csAt, hsE]
      · intro c2 hc2
        exact hge c2 (by simpa [csAt, hsE] using hc2)
  · by_cases hEF : E = F
    · subst hEF
      have hc1 : 1 ≤ c := hge c (by simp [csAt, hs, hcs])
      have hne : ¬ (c + 1 = 1) := by omega
      refine ⟨?_, ?_, ?_, .inr (.inr ⟨?_, ?_, ?_, c, ?_, ?_⟩)⟩ <;>
        simp [handle_stream_audio, hd, hau, hf, hs, hcs, htb, hne, relayedE,
          isAudioRelay, headersHas, csAt, dget_dset]
    · by_cases hc1 : c + 1 = 1
      · refine ⟨?_, ?_, ?_, .inl ⟨?_, ?_, ?_, ?_⟩⟩ <;>
          simp [handle_stream_audio, hd, hau, hf, hs, hcs, htb, hc1, relayedE,
            isAudioRelay, headersHas, csAt, dget_dset, hEF, Ne.symm hEF]
        rcases hsE : dget st.audio_stats E with _ | eE
        · simp [csAt, hsE]
        · intro c2 hc2
          exact hge c2 (by simpa [csAt, hsE] using hc2)
      · refine ⟨?_, ?_, ?_, .inl ⟨?_, ?_, ?_, ?_⟩⟩ <;>
          simp [handle_stream_audio, hd, hau, hf, hs, hcs, htb, hc1, relayedE,
            isAudioRelay, headersHas, csAt, dget_dset, hEF, Ne.symm hEF]
        rcases hsE : dget st.audio_stats E with _ | eE
        · simp [csAt, hsE]
        · intro c2 hc2
          exact hge c2 (by simpa [csAt, hsE] using hc2)

theorem headersHas_eq_of (st st' : HubState) (h : st'.audio_headers = st.audio_headers)
    (E : String) : headersHas st' E = headersHas st E := by
  simp [headersHas, h]

theorem csAt_eq_of (st st' : HubState) (h : st'.audio_stats = st.audio_stats)
    (E : String) : csAt st' E = csAt st E := by
  simp [csAt, h]

/-- Invariant tying a hub state to the two flags of the amended-claim fold:
the cache for `E` is exactly predicted by `p`, the presence of a
`chunks_sent` counter for `E` by `rl`, and every recorded `chunks_sent` value
is at least 1. -/
def c1Inv (st : HubState) (E : String) (rl p : Bool) : Prop :=
  headersHas st E = p ∧ (csAt st E).isSome = rl ∧ ∀ c, csAt st E = some c → 1 ≤ c

theorem c1Inv_step (st : HubState) (E : String) (rl p : Bool) (op : Op)
    (h : c1Inv st E rl p) :
    c1Inv (stepOp st op).st E
      (if isStartE op E then rl
       else if isStopE op E then false
       else if relayedE (stepOp st op) E then true
       else rl)
      (if isStartE op E then false
       else if isStopE op E then false
       else if relayedE (stepOp st op) E then (if rl then p else true)
       else p) := by
  obtain ⟨hH, hCS, hB⟩ := h
  cases op with
  | join sid d =>
    obtain ⟨h1, h2, _, _, h5⟩ := on_join_effects st sid d E
    refine ⟨?_, ?_, ?_⟩
    · simp [stepOp, isStartE, isStopE, h5, headersHas_eq_of _ _ h1, hH]
    · simp [stepOp, isStartE, isStopE, h5, csAt_eq_of _ _ h2, hCS]
    · simp only [stepOp, csAt_eq_of _ _ h2]; exact hB
  | leave sid d =>
    obtain ⟨h1, h2, _, _, h5⟩ := on_leave_effects st sid d E
    refine ⟨?_, ?_, ?_⟩
    · simp [stepOp, isStartE, isStopE, h5, headersHas_eq_of _ _ h1, hH]
    · simp [stepOp, isStartE, isStopE, h5, csAt_eq_of _ _ h2, hCS]
    · simp only [stepOp, csAt_eq_of _ _ h2]; exact hB
  | frame sid d =>
    obtain ⟨h1, h5⟩ := frame_effects st d E
    refine ⟨?_, ?_, ?_⟩
    · simp [stepOp, isStartE, isStopE, h5, h1, hH]
    · simp [stepOp, isStartE, isStopE, h5, h1, hCS]
    · simp only [stepOp, h1]; exact hB
  | reaction sid d =>
    obtain ⟨h1, h5⟩ := reaction_effects st d E
    refine ⟨?_, ?_, ?_⟩
    · simp [stepOp, isStartE, isStopE, h5, h1, hH]
    · simp [stepOp, isStartE, isStopE, h5, h1, hCS]
    · simp only [stepOp, h1]; exact hB
  | pcm sid d =>
    obtain ⟨h1, h2, _, _, _, h6⟩ := pcm_effects st d E
    refine ⟨?_, ?_, ?_⟩
    · simp [stepOp, isStartE, isStopE, h6, headersHas_eq_of _ _ h1, hH]
    · simp [stepOp, isStartE, isStopE, h6, h2, hCS]
    · simp only [stepOp, h2]; exact hB
  | start sid d =>
    obtain ⟨h1, _, _, h4, h5⟩ := start_effects st sid d E
    by_cases hS : isStartE (Op.start sid d) E = true
    · refine ⟨?_, ?_, ?_⟩
      · simp [stepOp, hS, h5]
      · simp [stepOp, hS, csAt_eq_of _ _ h1, hCS]
      · simp only [stepOp, csAt_eq_of _ _ h1]; exact hB
    · simp only [Bool.not_eq_true] at hS
      refine ⟨?_, ?_, ?_⟩
      · simp [stepOp, hS, h5, h4, hH, isStopE]
      · simp [stepOp, hS, h4, csAt_eq_of _ _ h1, hCS, isStopE]
      · simp only [stepOp, csAt_eq_of _ _ h1]; exact hB
  | stop sid d now =>
    obtain ⟨_, _, h3, h4, h5⟩ := stop_effects st sid d now E
    by_cases hS : isStopE (Op.stop sid d now) E = true
    · refine ⟨?_, ?_, ?_⟩
      · simp [stepOp, hS, h4, isStartE]
      · simp [stepOp, hS, h5, isStartE]
      · intro c hc; simp [stepOp, hS, h5] at hc
    · simp only [Bool.not_eq_true] at hS
      refine ⟨?_, ?_, ?_⟩
      · simp [stepOp, hS, h4, h3, hH, isStartE]
      · simp [stepOp, hS, h5, h3, hCS, isStartE]
      · intro c hc
        refine hB c ?_
        simpa [stepOp, h5, hS] using hc
  | audio sid d now =>
    have heff := audio_effects st d now E hB
    obtain ⟨_, _, _, hsc⟩ := heff
    rcases hsc with ⟨hr, hh, hcs2, hb2⟩ | ⟨hr, hnone, hh, hcs2⟩ | ⟨hr, hsome, hh, c, hc, hcs2⟩
    · refine ⟨?_, ?_, ?_⟩
      · simp [stepOp, isStartE, isStopE, hr, hh, hH]
      · simp [stepOp, isStartE, isStopE, hr, hcs2, hCS]
      · intro c2 hc2; exact hb2 c2 (by simpa [stepOp] using hc2)
    · have hrl : rl = false := by rw [← hCS, hnone]; rfl
      refine ⟨?_, ?_, ?_⟩
      · simp [stepOp, isStartE, isStopE, hr, hh, hrl]
      · simp [stepOp, isStartE, isStopE, hr, hcs2]
      · intro c2 hc2
        have : (1 : Nat) = c2 := by simpa [stepOp, hcs2] using hc2
        omega
    · have hrl : rl = true := by rw [← hCS, hsome]
      refine ⟨?_, ?_, ?_⟩
      · simp [stepOp, isStartE, isStopE, hr, hh, hrl, hH]
      · simp [stepOp, isStartE, isStopE, hr, hcs2]
      · intro c2 hc2
        have : c + 1 = c2 := by simpa [stepOp, hcs2] using hc2
        omega

theorem c1_run (E : String) : ∀ (t : List Op) (st : HubState) (rl p : Bool),
    c1Inv st E rl p → headersHas (runOps st t).1 E = c1AmendFlag st E rl p t := by
  intro t
  induction t with
  | nil => intro st rl p h; exact h.1
  | cons op rest ih =>
    intro st rl p h
    have hstep := c1Inv_step st E rl p op h
    simpa [runOps, c1AmendFlag] using ih (stepOp st op).st _ _ hstep

/-- Trace refuting claim C1: one chunk (cached), a restart (clears the cache
but not the counters), then a second chunk — which is relayed but, because
`chunks_sent` is already 2, is never cached again. -/
def c1Trace : List Op :=
  [.audio "bob" (some { event_id := some "7", audio := some (.str "AAAA") }) 0,
   .start "bob" (some { event_id := some "7" }),
   .audio "bob" (some { event_id := some "7", audio := some (.str "BBBB") }) 1]

/-- C1 counterexample: after chunk, start, chunk, a compressed chunk has been
relayed for event 7 since the most recent `start` with no stop intervening
(the claim's predicate is true), yet the header cache for 7 is empty — the
claimed iff fails on this trace. -/
theorem c1_counterexample :
    ¬ (headersHas (runOps (initState [(7, false)]) c1Trace).1 "7" =
       c1Flag (initState [(7, false)]) "7" false c1Trace) := by decide

/-- C1 amended: for every boot store, trace and event id, the header cache
entry for `E` is non-empty iff at least one compressed audio chunk has been
relayed for `E` since the most recent `stop(E)` (or since the beginning) and
no `start(E)` or `stop(E)` has intervened since the first such chunk — in
particular both `start(E)` and `stop(E)` leave the cache empty, but a chunk
relayed after a restart does not repopulate it. -/
theorem c1_header_cache_iff (es : List (Int × Bool)) (t : List Op) (E : String) :
    headersHas (runOps (initState es) t).1 E = c1AmendFlag (initState es) E false false t :=
  c1_run E t (initState es) false false
    ⟨rfl, rfl, fun c hc => by simp [csAt, initState, dget] at hc⟩

/-- The `total_bytes` counter recorded for `E`, if both the stats entry and
that key exist. -/
def tbAt (st : HubState) (E : String) : Option Nat :=
  match dget st.audio_stats E with
  | none => none
  | some e => e.total_bytes

/-- State whose stats entry for event 7 was created by the raw-PCM handler. -/
def stPcmFirst : HubState :=
  ⟨[("7", ["alice"])], [], [("7", { chunks := some 1 })], [], [(7, true)]⟩

/-- C5 counterexample: with a stats entry created by the raw-PCM handler, a
well-formed compressed chunk is not acknowledged with success, not counted and
not broadcast — the `chunks_sent` read raises a `KeyError` — refuting the
claim for every inbound chunk. -/
theorem c5_counterexample :
    ¬ ((handle_stream_audio stPcmFirst
          (some { event_id := some "7", audio := some (.str "AAAA") }) 0).ack = .ok ∧
       (handle_stream_audio stPcmFirst
          (some { event_id := some "7", audio := some (.str "AAAA") }) 0).emits =
         [⟨"new_audio",
           .audioOut (.str "data:audio/webm;base64,AAAA") "audio/webm" 0 "7" none,
           .room "7", false⟩] ∧
       csAt (handle_stream_audio stPcmFirst
          (some { event_id := some "7", audio := some (.str "AAAA") }) 0).st "7" =
         some 1) := by decide

/-- C5 amended: for an inbound compressed chunk with a present event id and a
truthy payload, provided the stats entry for the event (if any) carries the
`chunks_sent` and `total_bytes` keys (i.e. was not created by the raw-PCM
handler): a string payload without a `data:` prefix is wrapped into a data
URI with the declared mime type (default `audio/webm`), `chunks_sent` is
incremented by 1, `total_bytes` grows by the normalized payload's length, the
normalized chunk is broadcast to the room excluding the sender, and a success
acknowledgement is returned. -/
theorem c5_audio_chunk (st : HubState) (E : String) (a : AudioData)
    (mt : Option String) (ts : Option Nat) (now : Nat)
    (ha : a.isFalsy = false)
    (hok : dget st.audio_stats E = none ∨
           ∃ e, dget st.audio_stats E = some e ∧
             (∃ c, e.chunks_sent = some c) ∧ (∃ tb, e.total_bytes = some tb)) :
    (handle_stream_audio st
        (some { event_id := some E, audio := some a, mimeType := mt, timestamp := ts })
        now).ack = .ok ∧
    (handle_stream_audio st
        (some { event_id := some E, audio := some a, mimeType := mt, timestamp := ts })
        now).emits =
      [⟨"new_audio",
        .audioOut (normalizeAudio (mt.getD "audio/webm") a) (mt.getD "audio/webm")
          (ts.getD now) E none,
        .room E, false⟩] ∧
    csAt (handle_stream_audio st
        (some { event_id := some E, audio := some a, mimeType := mt, timestamp := ts })
        now).st E = some ((csAt st E).getD 0 + 1) ∧
    tbAt (handle_stream_audio st
        (some { event_id := some E, audio := some a, mimeType := mt, timestamp := ts })
        now).st E =
      some ((tbAt st E).getD 0 + (normalizeAudio (mt.getD "audio/webm") a).len) := by
  rcases hok with hs | ⟨e, hs, ⟨c, hcs⟩, ⟨tb, htb⟩⟩
  · refine ⟨?_, ?_, ?_, ?_⟩ <;>
      simp [handle_stream_audio, ha, hs, csAt, tbAt, dget_dset]
  · by_cases hc1 : c + 1 = 1 <;>
      refine ⟨?_, ?_, ?_, ?_⟩ <;>
        simp [handle_stream_audio, ha, hs, hcs, htb, hc1, csAt, tbAt, dget_dset]

theorem c5_audio_chunk_witness :
    (AudioData.str "AAAA").isFalsy = false ∧
    (dget stWithHeader.audio_stats "7" = none ∨
     ∃ e, dget stWithHeader.audio_stats "7" = some e ∧
       (∃ c, e.chunks_sent = some c) ∧ (∃ tb, e.total_bytes = some tb)) ∧
    csAt (handle_stream_audio stWithHeader
        (some { event_id := some "7", audio := some (.str "AAAA"),
                mimeType := none, timestamp := none }) 3).st "7" = some 3 :=
  ⟨by decide,
   Or.inr ⟨{ started_at := some 0, chunks_sent := some 2, total_bytes := some 8 },
     by decide, ⟨2, by decide⟩, ⟨8, by decide⟩⟩,
   by
     have h := (c5_audio_chunk stWithHeader "7" (.str "AAAA") none none 3 (by decide)
       (Or.inr ⟨{ started_at := some 0, chunks_sent := some 2, total_bytes := some 8 },
         by decide, ⟨2, by decide⟩, ⟨8, by decide⟩⟩)).2.2.1
     simpa using h⟩

/-- Every emit of `stream_audio` is a room broadcast with the sender excluded. -/
theorem handle_stream_audio_emits_shape (st : HubState) (d : Option AudioIn) (now : Nat) :
    (handle_stream_audio st d now).emits = [] ∨
    ∃ pl r2, (handle_stream_audio st d now).emits =
      [⟨"new_audio", pl, .room r2, false⟩] := by
  rcases d with _ | d
  · left; rfl
  rcases hd : d.event_id with _ | F
  · left; simp [handle_stream_audio, hd]
  rcases hau : d.audio with _ | a
  · left; simp [handle_stream_audio, hd, hau]
  by_cases hf : a.isFalsy
  · left; simp [handle_stream_audio, hd, hau, hf]
  rcases hs : dget st.audio_stats F with _ | e
  · right
    exact ⟨.audioOut (normalizeAudio (d.mimeType.getD "audio/webm") a)
        (d.mimeType.getD "audio/webm") (d.timestamp.getD now) F none, F,
      by simp [handle_stream_audio, hd, hau, hf, hs]⟩
  rcases hcs : e.chunks_sent with _ | c
  · left; simp [handle_stream_audio, hd, hau, hf, hs, hcs]
  rcases htb : e.total_bytes with _ | tb
  · left; simp [handle_stream_audio, hd, hau, hf, hs, hcs, htb]
  · right
    exact ⟨.audioOut (normalizeAudio (d.mimeType.getD "audio/webm") a)
        (d.mimeType.getD "audio/webm") (d.timestamp.getD now) F none, F,
      by by_cases hc1 : c + 1 = 1 <;>
        simp [handle_stream_audio, hd, hau, hf, hs, hcs, htb, hc1]⟩

/-- Every emit of `stream_audio_pcm` is a room broadcast with the sender
excluded. -/
theorem handle_stream_audio_pcm_emits_shape (st : HubState) (d : Option PcmIn) :
    (handle_stream_audio_pcm st d).emits = [] ∨
    ∃ pl r2, (handle_stream_audio_pcm st d).emits =
      [⟨"new_audio_pcm", pl, .room r2, false⟩] := by
  rcases d with _ | d
  · left; rfl
  rcases hd : d.event_id with _ | F
  · left; simp [handle_stream_audio_pcm, hd]
  rcases hs : dget st.audio_stats F with _ | e
  · right; exact ⟨.pcmEcho d, F, by simp [handle_stream_audio_pcm, hd, hs]⟩
  rcases hc : e.chunks with _ | c
  · left; simp [handle_stream_audio_pcm, hd, hs, hc]
  · right; exact ⟨.pcmEcho d, F, by simp [handle_stream_audio_pcm, hd, hs, hc]⟩

/-- C6: a reaction is broadcast to the whole room — its recipient list is
exactly the room membership, so the sender receives it when subscribed — while
a video-frame relay and every emit of the two audio relay handlers exclude the
sender, which receives nothing back. -/
theorem c6_reaction_includes_sender_media_excludes (st : HubState)
    (sender E emoji img : String) (d : Option AudioIn) (pd : Option PcmIn) (now : Nat) :
    (handle_reaction st (some { event_id := some E, emoji := some emoji })).emits =
      [⟨"new_reaction", .reactionOut emoji, .room E, true⟩] ∧
    Emit.recipients st sender ⟨"new_reaction", .reactionOut emoji, .room E, true⟩ =
      roomMembers st E ∧
    (handle_stream_frame st (some { event_id := some E, image := some img })).emits =
      [⟨"new_frame", .frameOut img, .room E, false⟩] ∧
    Emit.recipients st sender ⟨"new_frame", .frameOut img, .room E, false⟩ =
      (roomMembers st E).filter (fun c => c != sender) ∧
    sender ∉ Emit.recipients st sender ⟨"new_frame", .frameOut img, .room E, false⟩ ∧
    (∀ e ∈ (handle_stream_audio st d now).emits,
       sender ∉ Emit.recipients st sender e) ∧
    (∀ e ∈ (handle_stream_audio_pcm st pd).emits,
       sender ∉ Emit.recipients st sender e) := by
  refine ⟨rfl, ?_, rfl, ?_, ?_, ?_, ?_⟩
  · simp [Emit.recipients]
  · simp [Emit.recipients]
  · simp [Emit.recipients, List.mem_filter]
  · rcases handle_stream_audio_emits_shape st d now with h | ⟨pl, r2, h⟩
    · simp [h]
    · intro e he
      rw [h] at he
      simp at he
      subst he
      simp [Emit.recipients, List.mem_filter]
  · rcases handle_stream_audio_pcm_emits_shape st pd with h | ⟨pl, r2, h⟩
    · simp [h]
    · intro e he
      rw [h] at he
      simp at he
      subst he
      simp [Emit.recipients, List.mem_filter]

theorem c6_reaction_includes_sender_media_excludes_witness :
    (⟨"new_audio",
      .audioOut (.str "data:audio/webm;base64,AAAA") "audio/webm" 3 "7" none,
      .room "7", false⟩ : Emit) ∈
      (handle_stream_audio stWithHeader
        (some { event_id := some "7", audio := some (.str "AAAA"),
                mimeType := none, timestamp := none }) 3).emits ∧
    "alice" ∉ Emit.recipients stWithHeader "alice"
      ⟨"new_audio", .audioOut (.str "data:audio/webm;base64,AAAA") "audio/webm" 3 "7" none,
       .room "7", false⟩ :=
  ⟨by decide,
   (c6_reaction_includes_sender_media_excludes stWithHeader "alice" "7" "x" "i"
      (some { event_id := some "7", audio := some (.str "AAAA"),
              mimeType := none, timestamp := none }) none 3).2.2.2.2.2.1
     _ (by decide)⟩

/-- C7 counterexample: `start_stream` with a missing event id does not answer
with a structured error dict — the `KeyError` escapes the handler uncaught —
refuting the claim that every handler responds with a structured error to
malformed input. -/
theorem c7_counterexample :
    ¬ ((handle_start_stream (initState []) (some { event_id := none })).ack.isErr
        = true) := by decide

/-- C7 amended: only the compressed-audio handler answers malformed input
(missing data, event id or payload, or a falsy payload) with a structured
error to the sender; the raw-PCM handler returns silently on missing
data/event id; every other handler lets a `KeyError`/`TypeError` escape.  In
all these cases nothing is broadcast and the hub state is unchanged. -/
theorem c7_malformed_input (st : HubState) (sid E : String) (aud : Option AudioData)
    (mt : Option String) (ts : Option Nat) (ss : Option (List Int))
    (img emj : Option String) (a : AudioData) (now : Nat) (ha : a.isFalsy = true) :
    handle_stream_audio st none now =
      ⟨st, [], .err "Missing event_id", [.missingEventId]⟩ ∧
    handle_stream_audio st
        (some { event_id := none, audio := aud, mimeType := mt, timestamp := ts }) now =
      ⟨st, [], .err "Missing event_id", [.missingEventId]⟩ ∧
    handle_stream_audio st
        (some { event_id := some E, audio := none, mimeType := mt, timestamp := ts }) now =
      ⟨st, [], .err "No audio data", [.emptyAudio E]⟩ ∧
    handle_stream_audio st
        (some { event_id := some E, audio := some a, mimeType := mt, timestamp := ts }) now =
      ⟨st, [], .err "No audio data", [.emptyAudio E]⟩ ∧
    handle_stream_audio_pcm st none = ⟨st, [], .noAck, []⟩ ∧
    handle_stream_audio_pcm st (some { event_id := none, samples := ss }) =
      ⟨st, [], .noAck, []⟩ ∧
    on_join st sid none = ⟨st, [], .exn "TypeError: NoneType is not subscriptable", []⟩ ∧
    on_join st sid (some { event_id := none }) =
      ⟨st, [], .exn "KeyError: event_id", []⟩ ∧
    on_leave st sid (some { event_id := none }) =
      ⟨st, [], .exn "KeyError: event_id", []⟩ ∧
    handle_start_stream st (some { event_id := none }) =
      ⟨st, [], .exn "KeyError: event_id", []⟩ ∧
    handle_stop_stream st (some { event_id := none }) now =
      ⟨st, [], .exn "KeyError: event_id", []⟩ ∧
    handle_stream_frame st (some { event_id := none, image := img }) =
      ⟨st, [], .exn "KeyError: event_id", []⟩ ∧
    handle_stream_frame st (some { event_id := some E, image := none }) =
      ⟨st, [], .exn "KeyError: image", []⟩ ∧
    handle_reaction st (some { event_id := none, emoji := emj }) =
      ⟨st, [], .exn "KeyError: event_id", []⟩ ∧
    handle_reaction st (some { event_id := some E, emoji := none }) =
      ⟨st, [], .exn "KeyError: emoji", []⟩ := by
  refine ⟨rfl, rfl, rfl, ?_, rfl, rfl, rfl, rfl, rfl, rfl, rfl, rfl, rfl, rfl, rfl⟩
  simp [handle_stream_audio, ha]

theorem c7_malformed_input_witness :
    (AudioData.str "").isFalsy = true ∧
    handle_stream_audio stWithHeader
        (some { event_id := some "7", audio := some (.str ""),
                mimeType := none, timestamp := none }) 0 =
      ⟨stWithHeader, [], .err "No audio data", [.emptyAudio "7"]⟩ :=
  ⟨by decide,
   (c7_malformed_input stWithHeader "alice" "7" none none none none none none
      (.str "") 0 (by decide)).2.2.2.1⟩

/-- State with counters and a cached header for event 9, which has no record
in the Event store. -/
def stOrphan : HubState :=
  ⟨[], [],
   [("9", { started_at := some 0, chunks_sent := some 1, total_bytes := some 4 })],
   [("9", ⟨.str "data:audio/webm;base64,QQQQ", "audio/webm", 0, "9"⟩)], []⟩

/-- C8 counterexample: event 9 has no persisted record, yet `start_stream`
is not a no-op on hub state — it deletes the cached header for 9 before ever
consulting the store (and it prints no log line either). -/
theorem c8_counterexample :
    ¬ ((handle_start_stream stOrphan (some { event_id := some "9" })).st =
        stOrphan) := by decide

/-- C8 amended: for an event id that parses to an integer with no record in
the store, `start(E)` and `stop(E)` broadcast nothing, change no persisted
flag and surface no error — but they are not no-ops: `start` still deletes the
header cache entry of `E` (and logs nothing at all), and `stop` deletes both
the header cache entry and the counters entry of `E`. -/
theorem c8_unknown_event (st : HubState) (E : String) (n : Int) (now : Nat)
    (hn : pyToInt E = some n) (hb : dget st.events n = none) :
    handle_start_stream st (some { event_id := some E }) =
      ⟨{ st with audio_headers := derase st.audio_headers E }, [], .noAck, []⟩ ∧
    (handle_stop_stream st (some { event_id := some E }) now).st =
      { st with audio_headers := derase st.audio_headers E,
                audio_stats := derase st.audio_stats E } ∧
    (handle_stop_stream st (some { event_id := some E }) now).emits = [] ∧
    (handle_stop_stream st (some { event_id := some E }) now).ack = .noAck := by
  refine ⟨?_, ?_, ?_, ?_⟩
  · simp [handle_start_stream, hn, hb]
  all_goals
    rcases hs : dget st.audio_stats E with _ | s
  case' none => rw [derase_of_dget_none _ _ hs]
  all_goals simp [handle_stop_stream, hn, hb, hs]

theorem c8_unknown_event_witness :
    pyToInt "9" = some 9 ∧ dget stOrphan.events 9 = none ∧
    handle_start_stream stOrphan (some { event_id := some "9" }) =
      ⟨{ stOrphan with audio_headers := derase stOrphan.audio_headers "9" },
       [], .noAck, []⟩ :=
  ⟨by decide, by decide,
   (c8_unknown_event stOrphan "9" 9 0 (by decide) (by decide)).1⟩

/-- `stream_audio` never touches `active_streams` (no handler does). -/
theorem handle_stream_audio_active (st : HubState) (d : Option AudioIn) (now : Nat) :
    (handle_stream_audio st d now).st.active_streams = st.active_streams := by
  rcases d with _ | d
  · rfl
  rcases hd : d.event_id with _ | F
  · simp [handle_stream_audio, hd]
  rcases hau : d.audio with _ | a
  · simp [handle_stream_audio, hd, hau]
  by_cases hf : a.isFalsy
  · simp [handle_stream_audio, hd, hau, hf]
  rcases hs : dget st.audio_stats F with _ | e
  · simp [handle_stream_audio, hd, hau, hf, hs]
  rcases hcs : e.chunks_sent with _ | c
  · simp [handle_stream_audio, hd, hau, hf, hs, hcs]
  rcases htb : e.total_bytes with _ | tb
  · simp [handle_stream_audio, hd, hau, hf, hs, hcs, htb]
  · by_cases hc1 : c + 1 = 1 <;>
      simp [handle_stream_audio, hd, hau, hf, hs, hcs, htb, hc1]

/-- No operation ever writes `active_streams`. -/
theorem stepOp_active_streams (st : HubState) (op : Op) :
    (stepOp st op).st.active_streams = st.active_streams := by
  cases op with
  | join sid d => exact (on_join_effects st sid d "").2.2.1
  | leave sid d => exact (on_leave_effects st sid d "").2.2.1
  | start sid d => exact (start_effects st sid d "").2.1
  | stop sid d now => exact (stop_effects st sid d now "").1
  | frame sid d => rw [stepOp, (frame_effects st d "").1]
  | audio sid d now => exact handle_stream_audio_active st d now
  | pcm sid d => exact (pcm_effects st d "").2.2.1
  | reaction sid d => rw [stepOp, (reaction_effects st d "").1]

/-- From boot, `active_streams` stays empty forever. -/
theorem runOps_active_streams (es : List (Int × Bool)) (t : List Op) :
    (runOps (initState es) t).1.active_streams = [] := by
  suffices h : ∀ (t2 : List Op) (st : HubState),
      (runOps st t2).1.active_streams = st.active_streams by
    rw [h]; rfl
  intro t2
  induction t2 with
  | nil => intro st; rfl
  | cons op rest ih =>
    intro st
    calc (runOps st (op :: rest)).1.active_streams
        = (runOps (stepOp st op).st rest).1.active_streams := by rw [runOps]
      _ = (stepOp st op).st.active_streams := ih _
      _ = st.active_streams := stepOp_active_streams st op

/-- Trace for the C9 counterexample: a viewer joins room 7, then the stream
is started (the persisted record exists, so `is_live` is set to true). -/
def c9Trace : List Op :=
  [.join "alice" (some { event_id := some "7" }),
   .start "alice" (some { event_id := some "7" })]

/-- C9 counterexample: right after a successful `start`, event 7 is flagged
live in the store, yet the diagnostic query reports `is_streaming = false`
(it consults the never-written `active_streams` dict, not the live flag) —
refuting the claim that the query returns whether the event is flagged live. -/
theorem c9_counterexample :
    ¬ ((debug_rooms (runOps (initState [(7, false)]) c9Trace).1 "7").2.is_streaming =
       (dget (runOps (initState [(7, false)]) c9Trace).1.events 7).getD false) := by
  decide

/-- C9 amended: in every reachable state the diagnostic query returns the room
identifier, a subscriber list that is always empty (the code returns the
literal `[]`), the current counters snapshot, and an `is_streaming` flag that
is always false because it tests the never-populated `active_streams` dict
rather than the live flag; it never mutates hub state. -/
theorem c9_debug_rooms (es : List (Int × Bool)) (t : List Op) (E : String) :
    (debug_rooms (runOps (initState es) t).1 E).1 = (runOps (initState es) t).1 ∧
    (debug_rooms (runOps (initState es) t).1 E).2.room = E ∧
    (debug_rooms (runOps (initState es) t).1 E).2.clients = [] ∧
    (debug_rooms (runOps (initState es) t).1 E).2.stats =
      dget (runOps (initState es) t).1.audio_stats E ∧
    (debug_rooms (runOps (initState es) t).1 E).2.is_streaming = false := by
  refine ⟨rfl, rfl, rfl, rfl, ?_⟩
  simp [debug_rooms, runOps_active_streams, dget]

/-- C10: mixing the two audio handlers on one event id wedges it.  A raw-PCM
chunk arriving with no stats entry creates one carrying only the `chunks`
counter; a compressed chunk then hitting an entry without `chunks_sent` gets
a `KeyError` error ack, broadcasts nothing and changes nothing (so every
subsequent compressed chunk keeps failing); symmetrically, once a compressed
chunk created the entry (no `chunks` key), every raw-PCM chunk is dropped
without relay, leaving only a caught-exception log line. -/
theorem c10_mixed_handlers (st : HubState) (E : String) (e : StatsEntry)
    (a : AudioData) (mt : Option String) (ts : Option Nat) (ss : Option (List Int))
    (now : Nat) (ha : a.isFalsy = false) :
    (dget st.audio_stats E = none →
      dget (handle_stream_audio_pcm st
          (some { event_id := some E, samples := ss })).st.audio_stats E =
        some { chunks := some 1 } ∧
      (handle_stream_audio_pcm st (some { event_id := some E, samples := ss })).emits =
        [⟨"new_audio_pcm", .pcmEcho { event_id := some E, samples := ss },
          .room E, false⟩]) ∧
    (dget st.audio_stats E = some e → e.chunks_sent = none →
      handle_stream_audio st
          (some { event_id := some E, audio := some a, mimeType := mt, timestamp := ts })
          now =
        ⟨st, [], .err "KeyError: chunks_sent", []⟩) ∧
    (dget st.audio_stats E = some e → e.chunks = none →
      handle_stream_audio_pcm st (some { event_id := some E, samples := ss }) =
        ⟨st, [], .noAck, [.pcmError "KeyError: chunks"]⟩) := by
  refine ⟨?_, ?_, ?_⟩
  · intro hs
    constructor <;> simp [handle_stream_audio_pcm, hs, dget_dset]
  · intro hs hcs
    simp [handle_stream_audio, ha, hs, hcs]
  · intro hs hc
    simp [handle_stream_audio_pcm, hs, hc]

theorem c10_mixed_handlers_witness :
    dget stPcmFirst.audio_stats "7" = some { chunks := some 1 } ∧
    ({ chunks := some 1 } : StatsEntry).chunks_sent = none ∧
    handle_stream_audio stPcmFirst
        (some { event_id := some "7", audio := some (.str "AAAA"),
                mimeType := none, timestamp := none }) 0 =
      ⟨stPcmFirst, [], .err "KeyError: chunks_sent", []⟩ :=
  ⟨by decide, by decide,
   (c10_mixed_handlers stPcmFirst "7" { chunks := some 1 } (.str "AAAA") none none
      none 0 (by decide)).2.1 (by decide) (by decide)⟩

end EventSnap
